import Mathlib

/-!
Verification of the VNC bridge / resilience layer of this repository.

The definitions below are a shallow embedding of the Python sources:

* `backend/utils/retry_handler.py` — `RetryConfig`, `calculate_backoff`,
  `is_retryable_exception`, `retry_sync`, `CircuitBreaker`;
* `backend/vnc_bridge/app_real.py` — the session cache and `get_desktop_ip`;
* `backend/vnc_bridge/vnc_client.py` — the fallback RFB wire encoding
  (`_send_pointer_event`, `_send_key_event`, `click`, `type_text`, `key_press`);
* `backend/vnc_bridge/app.py` — `VNCBridge.screenshot`, `VNCBridge.key_combination`;
* `backend/lambda-packages/bedrock-agent/agents/computer_use_agent.py` —
  the action-validation tools `vnc_controller`, `keyboard_input`, `mouse_movement`.

Python floats (delays, timestamps) are modelled as exact rationals `ℚ`;
machine byte strings as `List Nat` with each element `< 256`; fallible
operations as `Option`/`Except`.
-/

/-! ### Exceptions (retry_handler.py uses isinstance checks and ClientError metadata) -/

/-- The exception classes that `retry_handler.py` distinguishes.  `clientError`
carries the AWS error code and HTTP status found in `exc.response`. -/
inductive ExcType
  | connectionError
  | endpointConnectionError
  | timeoutError
  | asyncioTimeoutError
  | clientError
  | otherExc
deriving DecidableEq, Repr

/-- A raised Python exception as seen by `is_retryable_exception`:
its class, and (for `ClientError`) the `Error.Code` and
`ResponseMetadata.HTTPStatusCode` fields of its response (the source
defaults them to `''` and `0` via `.get`). -/
structure PyException where
  ty : ExcType
  error_code : String := ""
  status_code : Nat := 0
deriving DecidableEq, Repr

/-- `isinstance(exc, target)` over the classes we model.  In botocore,
`EndpointConnectionError` is a subclass of `ConnectionError`; the other
modelled classes are unrelated to each other. -/
def isinstanceOf (t target : ExcType) : Bool :=
  t = target || (t = .endpointConnectionError && target = .connectionError)

/-! ### RetryConfig and calculate_backoff (retry_handler.py lines 14-57) -/

/-- Default `retryable_exceptions` list of `RetryConfig.__init__`. -/
def defaultRetryableExceptions : List ExcType :=
  [.connectionError, .endpointConnectionError, .timeoutError, .asyncioTimeoutError]

/-- Default `retryable_status_codes` list of `RetryConfig.__init__`. -/
def defaultRetryableStatusCodes : List Nat := [429, 500, 502, 503, 504]

/-- `RetryConfig` from retry_handler.py.  Delays are Python floats, modelled
as `ℚ`; nothing in the constructor restricts them to be non-negative, nor
`exponential_base` to be `≥ 1`. -/
structure RetryConfig where
  max_attempts : Nat := 3
  initial_delay : ℚ := 1
  max_delay : ℚ := 60
  exponential_base : ℚ := 2
  jitter : Bool := true
  retryable_exceptions : List ExcType := defaultRetryableExceptions
  retryable_status_codes : List Nat := defaultRetryableStatusCodes
deriving DecidableEq, Repr

/-- The local `delay` computed by `calculate_backoff` before jitter is added:
`min(initial_delay * exponential_base ** (attempt - 1), max_delay)`. -/
def backoffBase (attempt : Nat) (config : RetryConfig) : ℚ :=
  min (config.initial_delay * config.exponential_base ^ (attempt - 1)) config.max_delay

/-- `calculate_backoff(attempt, config)` from retry_handler.py.  The call to
`random.random()` is modelled by the explicit parameter `rand ∈ [0, 1)`;
the source adds `delay * random.random() * 0.25` when jitter is enabled. -/
def calculate_backoff (attempt : Nat) (config : RetryConfig) (rand : ℚ) : ℚ :=
  let delay := backoffBase attempt config
  if config.jitter then delay + delay * rand * (1 / 4) else delay

/-! ### is_retryable_exception (retry_handler.py lines 59-83) -/

/-- The hard-coded `retryable_codes` list inside `is_retryable_exception`. -/
def retryableCodes : List String :=
  ["ThrottlingException", "TooManyRequestsException", "RequestLimitExceeded",
   "ServiceUnavailable", "InternalServerError", "ProvisionedThroughputExceededException"]

/-- `is_retryable_exception(exc, config)` from retry_handler.py. -/
def is_retryable_exception (exc : PyException) (config : RetryConfig) : Bool :=
  if config.retryable_exceptions.any (fun t => isinstanceOf exc.ty t) then
    true
  else if exc.ty = .clientError then
    retryableCodes.contains exc.error_code
      || config.retryable_status_codes.contains exc.status_code
  else
    false

/-! ### retry_sync (retry_handler.py lines 85-127)

The wrapped function is modelled by `f : Nat → Except PyException α`,
giving the outcome of its `attempt`-th invocation.  The loop
`for attempt in range(1, max_attempts + 1)` is the structural recursion
below over `List.range' 1 max_attempts`.  Sleeping between attempts does
not affect the returned value and is not modelled. -/

/-- Result of running the `retry_sync` wrapper: the value returned or the
exception re-raised, together with how many times the wrapped function was
invoked.  `noAttempts` is the implicit `None` Python returns when
`max_attempts ≤ 0` makes the loop body never run. -/
inductive RetryResult (α : Type)
  | returned (v : α) (invocations : Nat)
  | raised (e : PyException) (invocations : Nat)
  | noAttempts
deriving DecidableEq, Repr

/-- Number of times the wrapped function was invoked. -/
def RetryResult.invocations {α : Type} : RetryResult α → Nat
  | .returned _ n => n
  | .raised _ n => n
  | .noAttempts => 0

/-- The body of `retry_sync`'s `for` loop, iterated over the remaining
attempt numbers.  On success the result is returned at once; on a failure
the exception is re-raised if the attempt budget is exhausted
(`attempt >= config.max_attempts`) or the exception is not retryable,
otherwise the loop continues with the next attempt. -/
def retryLoop {α : Type} (config : RetryConfig) (f : Nat → Except PyException α) :
    List Nat → RetryResult α
  | [] => .noAttempts
  | attempt :: rest =>
    match f attempt with
    | .ok v => .returned v attempt
    | .error e =>
      if config.max_attempts ≤ attempt then .raised e attempt
      else if ¬ is_retryable_exception e config then .raised e attempt
      else retryLoop config f rest

/-- `retry_sync(config)` applied to a wrapped function `f`:
runs attempts `1, 2, …, max_attempts`. -/
def retry_sync {α : Type} (config : RetryConfig) (f : Nat → Except PyException α) :
    RetryResult α :=
  retryLoop config f (List.range' 1 config.max_attempts)

/-! ### CircuitBreaker (retry_handler.py lines 173-212)

`time.time()` is modelled by the explicit `now : ℚ` argument of `call`.
Whether the wrapped function raises `expected_exception` when invoked is
the `CallOutcome` argument (the default `expected_exception = Exception`
catches everything, so two outcomes suffice). -/

/-- The `self.state` string: `'closed'`, `'open'` or `'half-open'`. -/
inductive BreakerState
  | closed
  | opened
  | halfOpen
deriving DecidableEq, Repr

/-- The mutable fields of a `CircuitBreaker` instance, plus its two
constructor parameters.  `last_failure_time` starts as `None`. -/
structure CircuitBreaker where
  failure_threshold : Nat
  recovery_timeout : ℚ
  failure_count : Nat
  last_failure_time : Option ℚ
  state : BreakerState
deriving DecidableEq, Repr

/-- `CircuitBreaker.__init__(failure_threshold, recovery_timeout)`. -/
def CircuitBreaker.init (failure_threshold : Nat) (recovery_timeout : ℚ) : CircuitBreaker :=
  ⟨failure_threshold, recovery_timeout, 0, none, .closed⟩

/-- What the wrapped function does when `call` actually invokes it. -/
inductive CallOutcome
  | success
  | failure
deriving DecidableEq, Repr

/-- How one `call` ends, as observed by the caller.  `rejected` is the
`'Circuit breaker is open'` exception raised without invoking the wrapped
function; `typeErrored` is the `TypeError` Python would raise on
`time.time() - None` if `state == 'open'` with `last_failure_time is None`
(unreachable from `init`, see `CircuitBreaker.Reachable`). -/
inductive CallEvent
  | rejected
  | returned
  | raised
  | typeErrored
deriving DecidableEq, Repr

/-- The `try:`/`except:` body of `call`, reached once the open-state guard
has been passed: invoke the function; a success while `'half-open'` closes
the breaker and zeroes the count; a failure increments the count, stamps
`last_failure_time` and opens the breaker once the count reaches
`failure_threshold`, re-raising either way. -/
def CircuitBreaker.runBody (cb : CircuitBreaker) (now : ℚ) (outcome : CallOutcome) :
    CircuitBreaker × CallEvent :=
  match outcome with
  | .success =>
    if cb.state = .halfOpen then
      ({ cb with state := .closed, failure_count := 0 }, .returned)
    else
      (cb, .returned)
  | .failure =>
    if cb.failure_threshold ≤ cb.failure_count + 1 then
      ({ cb with failure_count := cb.failure_count + 1,
                 last_failure_time := some now, state := .opened }, .raised)
    else
      ({ cb with failure_count := cb.failure_count + 1,
                 last_failure_time := some now }, .raised)

/-- `CircuitBreaker.call` from retry_handler.py: while `'open'`, either
move to `'half-open'` (when `now - last_failure_time > recovery_timeout`)
and fall through to the body, or raise without invoking the function. -/
def CircuitBreaker.call (cb : CircuitBreaker) (now : ℚ) (outcome : CallOutcome) :
    CircuitBreaker × CallEvent :=
  match cb.state with
  | .opened =>
    match cb.last_failure_time with
    | none => (cb, .typeErrored)
    | some t =>
      if cb.recovery_timeout < now - t then
        CircuitBreaker.runBody { cb with state := .halfOpen } now outcome
      else
        (cb, .rejected)
  | _ => CircuitBreaker.runBody cb now outcome

/-- Fold a sequence of calls (each with its clock reading and the wrapped
function's outcome) through one breaker instance. -/
def runCalls (cb : CircuitBreaker) (calls : List (ℚ × CallOutcome)) : CircuitBreaker :=
  calls.foldl (fun b p => (b.call p.1 p.2).1) cb

/-- Breaker states reachable from `CircuitBreaker.init` by any sequence of
calls (clock readings unconstrained). -/
inductive CircuitBreaker.Reachable : CircuitBreaker → Prop
  | init (ft : Nat) (rt : ℚ) : Reachable (CircuitBreaker.init ft rt)
  | step {cb : CircuitBreaker} (now : ℚ) (outcome : CallOutcome) :
      Reachable cb → Reachable (cb.call now outcome).1

/-- Invariant of reachable breakers: a non-`closed` state implies the
failure count has reached the threshold and `last_failure_time` is set,
and the transient `'half-open'` state never persists between calls. -/
def CircuitBreaker.Inv (cb : CircuitBreaker) : Prop :=
  (cb.state ≠ .closed →
    cb.failure_threshold ≤ cb.failure_count ∧ cb.last_failure_time.isSome) ∧
  cb.state ≠ .halfOpen

/-! ### Session cache and get_desktop_ip (app_real.py lines 36-58)

`session_cache: Dict[str, dict]` maps session ids to the DynamoDB records
stored on lookup success.  The source never records or checks any
timestamp for an entry; to be able to even state TTL claims, each stored
entry carries a ghost `fetch_time` (the clock value at insertion), which
the lookup path provably ignores. -/

/-- The part of a DynamoDB session record that `get_desktop_ip` reads:
its `task_ip` attribute (`none` when the attribute is absent). -/
structure SessionRecord where
  task_ip : Option String
deriving DecidableEq, Repr

/-- Python truthiness of `session.get('task_ip')`: an absent attribute or
an empty string is falsy. -/
def truthyIp : Option String → Bool
  | none => false
  | some s => s ≠ ""

/-- One cached record together with the ghost timestamp of its insertion. -/
structure CacheEntry where
  record : SessionRecord
  fetch_time : Nat
deriving DecidableEq, Repr

/-- The `session_cache` dict, as an association list in which the first
binding for a key is the current one (insertion conses a new binding). -/
abbrev SessionCache := List (String × CacheEntry)

/-- `session_id in session_cache` / `session_cache[session_id]`. -/
def cacheLookup (cache : SessionCache) (sid : String) : Option CacheEntry :=
  (cache.find? (fun p => p.1 = sid)).map (·.2)

/-- What `sessions_table.get_item` does for a given session id: returns a
record, returns no `Item`, or raises (any exception). -/
inductive DbResult
  | found (rec : SessionRecord)
  | missing
  | errored
deriving DecidableEq, Repr

/-- Result of one `get_desktop_ip` call: the value returned, the cache
left behind, and whether the durable (DynamoDB) lookup was performed. -/
structure ResolveResult where
  ip : Option String
  cache : SessionCache
  did_lookup : Bool
deriving DecidableEq, Repr

/-- `get_desktop_ip(session_id)` from app_real.py.  A cache hit returns
`session_cache[session_id].get('task_ip')` with no durable lookup; on a
miss, the DynamoDB read runs inside `try:` — an exception is logged and
the function returns `None` — and the record is cached only when it is
present with a truthy `task_ip`. -/
def get_desktop_ip (cache : SessionCache) (db : String → DbResult) (now : Nat)
    (session_id : String) : ResolveResult :=
  match cacheLookup cache session_id with
  | some entry => ⟨entry.record.task_ip, cache, false⟩
  | none =>
    match db session_id with
    | .errored => ⟨none, cache, true⟩
    | .missing => ⟨none, cache, true⟩
    | .found rec =>
      if truthyIp rec.task_ip then
        ⟨rec.task_ip, (session_id, ⟨rec, now⟩) :: cache, true⟩
      else
        ⟨none, cache, true⟩

/-! ### struct.pack and the fallback wire encoding (vnc_client.py lines 142-189)

`struct.pack` with the `'!'` (big-endian) byte order: `B` is one byte,
`H` two, `I` four.  It raises `struct.error` when the number of values
does not match the number of format fields, or a value is out of range;
that is the `none` case below. -/

/-- One field of a `struct` format string. -/
inductive PackField
  | fB
  | fH
  | fI
deriving DecidableEq, Repr

/-- Big-endian encoding of one value under one format field; `none` is
`struct.error` (value out of range). -/
def packField : PackField → Nat → Option (List Nat)
  | .fB, v => if v < 2 ^ 8 then some [v] else none
  | .fH, v => if v < 2 ^ 16 then some [v / 2 ^ 8, v % 2 ^ 8] else none
  | .fI, v =>
    if v < 2 ^ 32 then
      some [v / 2 ^ 24 % 2 ^ 8, v / 2 ^ 16 % 2 ^ 8, v / 2 ^ 8 % 2 ^ 8, v % 2 ^ 8]
    else none

/-- `struct.pack('!…', …)`: all fields packed in order; `none`
(`struct.error`) on an arity mismatch or an out-of-range value. -/
def structPack : List PackField → List Nat → Option (List Nat)
  | [], [] => some []
  | f :: fs, v :: vs => do
    let b ← packField f v
    let rest ← structPack fs vs
    pure (b ++ rest)
  | _, _ => none

/-- `VNCClient._send_key_event(key, down)`:
`struct.pack('!BBHHI', 4, 1 if down else 0, 0, key)`.  The format string
names five fields but only four values are supplied.  `none` means
`struct.error` was raised, the `except` branch returned `False`, and
nothing was written to the stream. -/
def send_key_event (key : Nat) (down : Bool) : Option (List Nat) :=
  structPack [.fB, .fB, .fH, .fH, .fI] [4, if down then 1 else 0, 0, key]

/-- The bytes `type_text` (fallback path) writes for a text, given as the
code points of its characters: for each character, a key-down event then a
key-up event — an event that raises inside `_send_key_event` writes
nothing (the `False` return is ignored by `type_text`). -/
def type_text_bytes (text : List Nat) : List Nat :=
  text.flatMap fun c =>
    ((send_key_event c true).getD []) ++ ((send_key_event c false).getD [])

/-- `VNCClient._send_pointer_event(x, y, button_mask)`:
`struct.pack('!BBHH', 5, button_mask, x, y)`. -/
def send_pointer_event (x y button_mask : Nat) : Option (List Nat) :=
  structPack [.fB, .fB, .fH, .fH] [5, button_mask, x, y]

/-- The bytes the fallback path of `VNCClient.click(x, y, button)` writes:
a single `_send_pointer_event(x, y, button)` — the `button` number is
passed directly as the button mask, and no further event is sent. -/
def click_fallback_bytes (x y button : Nat) : List Nat :=
  (send_pointer_event x y button).getD []

/-- What the specification says a fallback `click` writes: a press
pointer event whose mask has the button's bit set, followed by a release
event (empty mask) at the same coordinates.

Modelled from the spec: "a `click` … produces a pointer-event message
with button mask for \"left pressed\" at x,y …, followed by a release
event"; buttons 1, 2, 3 (left, middle, right) set bits 0, 1, 2. -/
def click_claimed_bytes (x y button : Nat) : List Nat :=
  ((send_pointer_event x y (2 ^ (button - 1))).getD []) ++
    ((send_pointer_event x y 0).getD [])

/-! ### key_press fallback and the bridge pass-through (vnc_client.py lines 191-219, app.py lines 187-200) -/

/-- Python `str.lower()` (ASCII case mapping, which covers every string
these sources compare against). -/
def pyToLower (s : String) : String := ⟨s.data.map Char.toLower⟩

/-- Helper for `pySplitOnPlus`: characters read so far (reversed) and the
rest of the string. -/
def splitPlusAux : List Char → List Char → List String
  | [], acc => [⟨acc.reverse⟩]
  | c :: cs, acc =>
    if c = '+' then ⟨acc.reverse⟩ :: splitPlusAux cs [] else splitPlusAux cs (c :: acc)

/-- Python `str.split('+')`: always at least one part; empty parts appear
around leading, trailing or doubled separators. -/
def pySplitOnPlus (s : String) : List String := splitPlusAux s.data []

/-- The `key_map` dict in `VNCClient.key_press`: named keys to X keysyms. -/
def key_map (k : String) : Option Nat :=
  if k = "enter" then some 0xff0d
  else if k = "tab" then some 0xff09
  else if k = "escape" then some 0xff1b
  else if k = "backspace" then some 0xff08
  else if k = "delete" then some 0xffff
  else if k = "up" then some 0xff52
  else if k = "down" then some 0xff54
  else if k = "left" then some 0xff51
  else if k = "right" then some 0xff53
  else none

/-- Result of the fallback `VNCClient.key_press(key)`: the boolean it
returns and the bytes it wrote.  A mapped key sends a key-down then a
key-up event (their `False` returns are ignored) and returns `True`;
an unmapped key returns `False` with no I/O. -/
structure KeyPressResult where
  ok : Bool
  bytes : List Nat
deriving DecidableEq, Repr

/-- Fallback `VNCClient.key_press(key)`: look `key.lower()` up in
`key_map` and, on a hit, emit the down/up events for its keysym. -/
def key_press (key : String) : KeyPressResult :=
  match key_map (pyToLower key) with
  | some keysym =>
    ⟨true, ((send_key_event keysym true).getD []) ++ ((send_key_event keysym false).getD [])⟩
  | none => ⟨false, []⟩

/-- One `VNCBridge.key_combination(keys)` call (app.py), in the
configuration where the protocol client is the fallback `VNCClient`:
which keys string the bridge handed to `VNCClient.key_press` (it always
does, verbatim — there is no validation step), and the boolean result. -/
structure BridgeKeyResult where
  client_called : Bool
  client_keys : Option String
  result : Bool
deriving DecidableEq, Repr

/-- `VNCBridge.key_combination(keys)` from app.py: the client exists and
has `key_press`, so the string is passed through unchanged and the
client's return value is returned. -/
def bridge_key_combination (keys : String) : BridgeKeyResult :=
  ⟨true, some keys, (key_press keys).ok⟩

/-! ### VNCBridge.screenshot (app.py lines 104-152) -/

/-- What `VNCBridge.screenshot` can hand back on success: the real
capture's base64 payload, or the synthetic placeholder `_mock_screenshot` builds
(a white 1920x1080 PNG with a timestamp, abstracted as `mock`). -/
inductive Shot
  | real (b64 : String)
  | mock
deriving DecidableEq, Repr

/-- `VNCBridge.screenshot` with the protocol client present:
`client_capture` is what `self.client.screenshot()` returned (`none` for
`None`), `s3_configured` is `S3_BUCKET and SESSION_ID` both set.  A falsy
capture falls back to the mock image; but the S3-save branch then reads
the undefined name `buffer`, whose `NameError` is caught by the
surrounding `except`, which returns `None`. -/
def bridge_screenshot (client_capture : Option String) (s3_configured : Bool) :
    Option Shot :=
  let shot : Shot :=
    match client_capture with
    | some s => if s = "" then .mock else .real s
    | none => .mock
  if s3_configured then none
  else some shot

/-! ### Agent-side action validation (computer_use_agent.py lines 167-290)

These tools validate structured action requests and return result dicts;
they perform no protocol I/O (their results carry no wire bytes). -/

/-- `valid_actions` in `vnc_controller`. -/
def valid_actions : List String := ["click", "double_click", "right_click", "drag"]

/-- `valid_buttons` in `vnc_controller`. -/
def valid_buttons : List String := ["left", "right", "middle"]

/-- `valid_modifiers` in `keyboard_input`. -/
def valid_modifiers : List String := ["ctrl", "alt", "shift", "cmd", "meta"]

/-- Outcome of `ComputerUseAgent.vnc_controller`. -/
inductive VncControllerResult
  | invalidAction (a : String)
  | invalidButton (b : String)
  | invalidCoordinates
  | executed (action : String) (x y : Int) (button : String)
deriving DecidableEq, Repr

/-- `ComputerUseAgent.vnc_controller(action, x, y, button)`: action and
button are checked against their allow-lists, then coordinates must be
non-negative, before the executed result is built. -/
def vnc_controller (action : String) (x y : Int) (button : String) : VncControllerResult :=
  if ¬ valid_actions.contains action then .invalidAction action
  else if ¬ valid_buttons.contains button then .invalidButton button
  else if x < 0 ∨ y < 0 then .invalidCoordinates
  else .executed action x y button

/-- Python truthiness of an optional string argument (`None` and `''` are
falsy). -/
def truthyStr : Option String → Bool
  | none => false
  | some s => s ≠ ""

/-- `key_combination.lower().split('+')` in `keyboard_input`. -/
def combo_parts (combo : String) : List String := pySplitOnPlus (pyToLower combo)

/-- `parts[:-1]`: the modifier components of a key combination. -/
def combo_modifiers (combo : String) : List String := (combo_parts combo).dropLast

/-- `parts[-1]`: the terminal key of a key combination. -/
def combo_terminal_key (combo : String) : Option String := (combo_parts combo).getLast?

/-- `for mod in modifiers: if mod not in valid_modifiers: return …` —
the first modifier the loop rejects, if any. -/
def firstInvalidModifier : List String → Option String
  | [] => none
  | m :: ms => if valid_modifiers.contains m then firstInvalidModifier ms else some m

/-- Outcome of `ComputerUseAgent.keyboard_input`. -/
inductive KeyboardResult
  | missingInput
  | invalidFormat (combo : String)
  | invalidModifier (m : String)
  | executed (typed : Option String) (combo : Option String)
deriving DecidableEq, Repr

/-- `ComputerUseAgent.keyboard_input(text, key_combination)`: requires at
least one of the arguments to be truthy; a truthy combination is split on
`'+'` after lowercasing, needs at least two parts (a bare key is an
invalid format), and every part but the last must be a valid modifier.
The executed result echoes the truthy inputs (`None` otherwise). -/
def keyboard_input (text : String) (key_combination : Option String) : KeyboardResult :=
  if text = "" ∧ truthyStr key_combination = false then .missingInput
  else if truthyStr key_combination then
    if (combo_parts (key_combination.getD "")).length < 2 then
      .invalidFormat (key_combination.getD "")
    else
      match firstInvalidModifier (combo_modifiers (key_combination.getD "")) with
      | some m => .invalidModifier m
      | none =>
        .executed (if text = "" then none else some text) key_combination
  else
    .executed (if text = "" then none else some text) key_combination

/-! ### Concrete instances used by witnesses and counterexamples -/

/-- A `RetryConfig(max_attempts=3, initial_delay=1.0, max_delay=60.0,
exponential_base=0.5, jitter=False)` — constructible, since nothing in
`RetryConfig.__init__` restricts `exponential_base`. -/
def cfgHalfBase : RetryConfig :=
  ⟨3, 1, 60, 1 / 2, false, defaultRetryableExceptions, defaultRetryableStatusCodes⟩

/-- A `RetryConfig(max_attempts=3, initial_delay=1.0, max_delay=-1.0,
exponential_base=2.0, jitter=True)` — a negative `max_delay` is likewise
not rejected by the constructor. -/
def cfgNegMax : RetryConfig :=
  ⟨3, 1, -1, 2, true, defaultRetryableExceptions, defaultRetryableStatusCodes⟩

/-- The `ecs_retry_config` instance from retry_handler.py lines 227-231:
`max_attempts=3, initial_delay=1.0, max_delay=10.0` with the defaults. -/
def ecs_retry_config : RetryConfig :=
  ⟨3, 1, 10, 2, true, defaultRetryableExceptions, defaultRetryableStatusCodes⟩

/-- A concrete retried operation: first invocation raises a
`ConnectionError`, second returns `42`. -/
def exampleOp : Nat → Except PyException Nat
  | 1 => .error ⟨.connectionError, "", 0⟩
  | 2 => .ok 42
  | _ => .error ⟨.otherExc, "", 0⟩

/-- A breaker built by two failed calls on
`CircuitBreaker(failure_threshold=2, recovery_timeout=60.0)`:
its state is `'open'` with `last_failure_time = 1`. -/
def cbOpen : CircuitBreaker :=
  (((CircuitBreaker.init 2 60).call 0 .failure).1.call 1 .failure).1

/-!
## Theorems

Each claim `Cn` of the companion claim list is settled by the theorem
carrying its name; helper lemmas precede them.
-/

section RetryLemmas

variable {α : Type}

/-- Iterations whose attempt fails retryably below the budget are skipped. -/
lemma retryLoop_append_skip (config : RetryConfig) (f : Nat → Except PyException α)
    (l₁ l₂ : List Nat)
    (h : ∀ a ∈ l₁, (∃ e, f a = .error e ∧ is_retryable_exception e config = true) ∧
      a < config.max_attempts) :
    retryLoop config f (l₁ ++ l₂) = retryLoop config f l₂ := by
  induction l₁ with
  | nil => rfl
  | cons a l ih =>
    obtain ⟨⟨e, hfe, hre⟩, ha⟩ := h a (by simp)
    have hrest : ∀ b ∈ l, (∃ e, f b = .error e ∧ is_retryable_exception e config = true) ∧
        b < config.max_attempts := fun b hb => h b (by simp [hb])
    simp only [List.cons_append, retryLoop, hfe]
    rw [if_neg (by omega), if_neg (by simp [hre])]
    exact ih hrest

/-- The loop never runs more invocations than attempt numbers it was given. -/
lemma retryLoop_invocations_le (config : RetryConfig) (f : Nat → Except PyException α)
    (l : List Nat) (h : ∀ a ∈ l, a ≤ config.max_attempts) :
    (retryLoop config f l).invocations ≤ config.max_attempts := by
  induction l with
  | nil => simp [retryLoop, RetryResult.invocations]
  | cons a l ih =>
    have ha := h a (by simp)
    have hrest : ∀ b ∈ l, b ≤ config.max_attempts := fun b hb => h b (by simp [hb])
    cases hfa : f a with
    | ok v => simpa [retryLoop, hfa, RetryResult.invocations] using ha
    | error e =>
      simp only [retryLoop, hfa]
      split
      · simpa [RetryResult.invocations] using ha
      · split
        · simpa [RetryResult.invocations] using ha
        · exact ih hrest

/-- A retryable exception is only ever re-raised once the attempt budget
is exhausted. -/
lemma retryLoop_raised_retryable (config : RetryConfig) (f : Nat → Except PyException α)
    (l : List Nat) (e : PyException) (n : Nat)
    (hr : retryLoop config f l = .raised e n)
    (hret : is_retryable_exception e config = true) :
    config.max_attempts ≤ n := by
  induction l with
  | nil => simp [retryLoop] at hr
  | cons a l ih =>
    cases hfa : f a with
    | ok v => simp [retryLoop, hfa] at hr
    | error e' =>
      simp only [retryLoop, hfa] at hr
      by_cases h1 : config.max_attempts ≤ a
      · rw [if_pos h1] at hr
        cases hr
        exact h1
      · rw [if_neg h1] at hr
        by_cases h2 : is_retryable_exception e' config = true
        · rw [if_neg (by simp [h2])] at hr
          exact ih hr
        · rw [if_pos (by simpa using h2)] at hr
          cases hr
          exact absurd hret (by simpa using h2)

end RetryLemmas

/-- C6: the retry wrapper invokes the wrapped operation at most
`max_attempts` times; a successful attempt returns its result at once
with no further invocations; a non-retryable exception is re-raised at
once with no further invocations; and a retryable exception surfaces to
the caller only on the final allowed attempt. -/
theorem C6_retry_policy {α : Type} :
    (∀ (config : RetryConfig) (f : Nat → Except PyException α),
      (retry_sync config f).invocations ≤ config.max_attempts) ∧
    (∀ (config : RetryConfig) (f : Nat → Except PyException α) (k : Nat) (v : α),
      1 ≤ k → k ≤ config.max_attempts → f k = .ok v →
      (∀ j, 1 ≤ j → j < k →
        ∃ e, f j = .error e ∧ is_retryable_exception e config = true) →
      retry_sync config f = .returned v k) ∧
    (∀ (config : RetryConfig) (f : Nat → Except PyException α) (k : Nat) (e : PyException),
      1 ≤ k → k ≤ config.max_attempts → f k = .error e →
      is_retryable_exception e config = false →
      (∀ j, 1 ≤ j → j < k →
        ∃ e', f j = .error e' ∧ is_retryable_exception e' config = true) →
      retry_sync config f = .raised e k) ∧
    (∀ (config : RetryConfig) (f : Nat → Except PyException α) (e : PyException) (n : Nat),
      retry_sync config f = .raised e n → is_retryable_exception e config = true →
      n = config.max_attempts) := by
  have hsplit : ∀ (config : RetryConfig) (k : Nat), 1 ≤ k → k ≤ config.max_attempts →
      List.range' 1 config.max_attempts =
        List.range' 1 (k - 1) ++ (k :: List.range' (k + 1) (config.max_attempts - k)) := by
    intro config k h1 h2
    have h3 : List.range' k (config.max_attempts - k + 1) 1 =
        k :: List.range' (k + 1) (config.max_attempts - k) 1 := List.range'_succ k _ 1
    have h4 : List.range' 1 (k - 1) ++ List.range' (1 + (k - 1)) (config.max_attempts - k + 1)
        = List.range' 1 ((config.max_attempts - k + 1) + (k - 1)) := List.range'_append_1 _ _ _
    rw [show 1 + (k - 1) = k by omega] at h4
    rw [show (config.max_attempts - k + 1) + (k - 1) = config.max_attempts by omega] at h4
    rw [← h4, h3]
  have hskip : ∀ (config : RetryConfig) (f : Nat → Except PyException α) (k : Nat),
      1 ≤ k → k ≤ config.max_attempts →
      (∀ j, 1 ≤ j → j < k →
        ∃ e, f j = .error e ∧ is_retryable_exception e config = true) →
      retry_sync config f = retryLoop config f (k :: List.range' (k + 1) (config.max_attempts - k)) := by
    intro config f k h1 h2 hpre
    rw [retry_sync, hsplit config k h1 h2]
    refine retryLoop_append_skip config f _ _ (fun a ha => ?_)
    have hb := List.mem_range'_1.mp ha
    exact ⟨hpre a hb.1 (by omega), by omega⟩
  refine ⟨?_, ?_, ?_, ?_⟩
  · intro config f
    refine retryLoop_invocations_le config f _ (fun a ha => ?_)
    have := List.mem_range'_1.mp ha
    omega
  · intro config f k v h1 h2 hk hpre
    rw [hskip config f k h1 h2 hpre]
    simp [retryLoop, hk]
  · intro config f k e h1 h2 hk hret hpre
    rw [hskip config f k h1 h2 hpre]
    simp only [retryLoop, hk]
    by_cases hb : config.max_attempts ≤ k
    · rw [if_pos hb]
    · rw [if_neg hb, if_pos (by simp [hret])]
  · intro config f e n hr hret
    have hle : config.max_attempts ≤ n :=
      retryLoop_raised_retryable config f _ e n hr hret
    have hge : (retry_sync config f).invocations ≤ config.max_attempts := by
      refine retryLoop_invocations_le config f _ (fun a ha => ?_)
      have := List.mem_range'_1.mp ha
      omega
    rw [hr] at hge
    simp [RetryResult.invocations] at hge
    omega

/-- Witness for C6 at `ecs_retry_config` and `exampleOp` (first attempt
raises `ConnectionError`, second returns 42): two invocations, result 42,
and a non-retryable first failure would have surfaced at once. -/
theorem C6_retry_policy_witness :
    retry_sync ecs_retry_config exampleOp = .returned 42 2 ∧
    retry_sync ecs_retry_config (fun _ => (.error ⟨.otherExc, "", 0⟩ : Except PyException Nat))
      = .raised ⟨.otherExc, "", 0⟩ 1 := by
  constructor
  · refine C6_retry_policy.2.1 ecs_retry_config exampleOp 2 42 (by decide) (by decide)
      rfl (fun j hj1 hj2 => ?_)
    have hj : j = 1 := by omega
    subst hj
    exact ⟨⟨.connectionError, "", 0⟩, rfl, by decide⟩
  · exact C6_retry_policy.2.2.1 ecs_retry_config _ 1 ⟨.otherExc, "", 0⟩ (by decide) (by decide)
      rfl (by decide) (fun j hj1 hj2 => absurd hj2 (by omega))

/-- C5 counterexample: `RetryConfig` does not constrain its fields, and the
claim quantifies over every config.  With `exponential_base = 0.5` the
computed delay strictly decreases from attempt 1 to attempt 2; and with
`max_delay = -1.0` and jitter enabled, the jittered delay (at
`random.random() = 0.5`) drops strictly below the non-jittered base. -/
theorem C5_counterexample :
    calculate_backoff 2 cfgHalfBase 0 < calculate_backoff 1 cfgHalfBase 0 ∧
    calculate_backoff 1 cfgNegMax (1 / 2) < backoffBase 1 cfgNegMax := by
  constructor
  · norm_num [calculate_backoff, backoffBase, cfgHalfBase]
  · norm_num [calculate_backoff, backoffBase, cfgNegMax]

/-- C5 (amended): for every `RetryConfig` with non-negative
`initial_delay` and `exponential_base ≥ 1`, the non-jittered delay
`min(initial_delay * exponential_base^(n-1), max_delay)` is non-decreasing
in the attempt number; and whenever `initial_delay`, `exponential_base`,
`max_delay` and the random draw are non-negative, jitter never pushes the
delay below that non-jittered base value. -/
theorem C5_backoff_monotone :
    (∀ (config : RetryConfig) (n m : Nat),
      0 ≤ config.initial_delay → 1 ≤ config.exponential_base → n ≤ m →
      backoffBase n config ≤ backoffBase m config) ∧
    (∀ (config : RetryConfig) (n : Nat) (rand : ℚ),
      0 ≤ config.initial_delay → 0 ≤ config.exponential_base →
      0 ≤ config.max_delay → 0 ≤ rand →
      backoffBase n config ≤ calculate_backoff n config rand) := by
  constructor
  · intro config n m h0 h1 hnm
    unfold backoffBase
    refine min_le_min ?_ le_rfl
    exact mul_le_mul_of_nonneg_left
      (pow_le_pow_right₀ h1 (Nat.sub_le_sub_right hnm 1)) h0
  · intro config n rand h0 hb hm hr
    have hd : 0 ≤ backoffBase n config :=
      le_min (mul_nonneg h0 (pow_nonneg hb _)) hm
    unfold calculate_backoff
    cases hj : config.jitter with
    | false => simp
    | true =>
      simp only [if_true]
      have : 0 ≤ backoffBase n config * rand * (1 / 4) := by positivity
      linarith

/-- Witness for C5 at `ecs_retry_config` (`initial_delay = 1`,
`exponential_base = 2`, `max_delay = 10`): delays for attempts 1 and 3
are ordered, and the jittered delay of attempt 2 at `rand = 1/2` is at
least the base delay. -/
theorem C5_backoff_monotone_witness :
    backoffBase 1 ecs_retry_config ≤ backoffBase 3 ecs_retry_config ∧
    backoffBase 2 ecs_retry_config ≤ calculate_backoff 2 ecs_retry_config (1 / 2) := by
  constructor
  · exact C5_backoff_monotone.1 ecs_retry_config 1 3
      (by norm_num [ecs_retry_config]) (by norm_num [ecs_retry_config]) (by norm_num)
  · exact C5_backoff_monotone.2 ecs_retry_config 2 (1 / 2)
      (by norm_num [ecs_retry_config]) (by norm_num [ecs_retry_config])
      (by norm_num [ecs_retry_config]) (by norm_num)

section BreakerLemmas

/-- The invariant holds for a freshly constructed breaker. -/
lemma CircuitBreaker.inv_init (ft : Nat) (rt : ℚ) : (CircuitBreaker.init ft rt).Inv :=
  ⟨fun h => absurd rfl h, fun h => BreakerState.noConfusion h⟩

/-- The `try:` body preserves the invariant, provided the incoming state
satisfies its non-closed clause. -/
lemma CircuitBreaker.runBody_inv {cb : CircuitBreaker} (now : ℚ) (outcome : CallOutcome)
    (h1 : cb.state ≠ .closed →
      cb.failure_threshold ≤ cb.failure_count ∧ cb.last_failure_time.isSome) :
    (cb.runBody now outcome).1.Inv := by
  cases outcome with
  | success =>
    by_cases hs : cb.state = .halfOpen
    · simp only [runBody, if_pos hs]
      exact ⟨fun h => absurd rfl h, fun h => BreakerState.noConfusion h⟩
    · simp only [runBody, if_neg hs]
      exact ⟨h1, hs⟩
  | failure =>
    by_cases hth : cb.failure_threshold ≤ cb.failure_count + 1
    · simp only [runBody, if_pos hth]
      exact ⟨fun _ => ⟨hth, rfl⟩, fun h => BreakerState.noConfusion h⟩
    · simp only [runBody, if_neg hth]
      refine ⟨fun h => ⟨?_, rfl⟩, fun h => ?_⟩
      · have := (h1 h).1
        omega
      · have := (h1 (h ▸ fun hc => BreakerState.noConfusion hc)).1
        omega

/-- `call` preserves the invariant. -/
lemma CircuitBreaker.inv_call {cb : CircuitBreaker} (h : cb.Inv) (now : ℚ)
    (outcome : CallOutcome) : (cb.call now outcome).1.Inv := by
  obtain ⟨ft, rt, fc, lt, st⟩ := cb
  cases st with
  | closed =>
    exact runBody_inv now outcome (fun hne => absurd rfl hne)
  | opened =>
    cases lt with
    | none =>
      exact absurd (h.1 (fun hc => BreakerState.noConfusion hc)).2 (by simp)
    | some t =>
      by_cases hel : rt < now - t
      · have hcur := h.1 (fun hc => BreakerState.noConfusion hc)
        show ((if rt < now - t then
            CircuitBreaker.runBody ⟨ft, rt, fc, some t, .halfOpen⟩ now outcome
          else (⟨ft, rt, fc, some t, .opened⟩, .rejected))).1.Inv
        rw [if_pos hel]
        exact runBody_inv now outcome (fun _ => ⟨hcur.1, rfl⟩)
      · show ((if rt < now - t then
            CircuitBreaker.runBody ⟨ft, rt, fc, some t, .halfOpen⟩ now outcome
          else (⟨ft, rt, fc, some t, .opened⟩, .rejected))).1.Inv
        rw [if_neg hel]
        exact h
  | halfOpen =>
    exact absurd rfl h.2

/-- Every reachable breaker satisfies the invariant. -/
lemma CircuitBreaker.reachable_inv {cb : CircuitBreaker} (h : cb.Reachable) : cb.Inv := by
  induction h with
  | init ft rt => exact inv_init ft rt
  | step now outcome _ ih => exact inv_call ih now outcome

/-- A failed call on an open breaker leaves it open (rejected inside the
window, or re-opened by the half-open probe's failure). -/
lemma CircuitBreaker.open_stays_open {cb : CircuitBreaker} (h : cb.Inv)
    (hst : cb.state = .opened) (now : ℚ) :
    (cb.call now .failure).1.state = .opened := by
  obtain ⟨ft, rt, fc, lt, st⟩ := cb
  simp only at hst
  subst hst
  cases lt with
  | none =>
    exact absurd (h.1 (fun hc => BreakerState.noConfusion hc)).2 (by simp)
  | some t =>
    have hcur : ft ≤ fc := (h.1 (fun hc => BreakerState.noConfusion hc)).1
    by_cases hel : rt < now - t
    · show ((if rt < now - t then
          CircuitBreaker.runBody ⟨ft, rt, fc, some t, .halfOpen⟩ now .failure
        else (⟨ft, rt, fc, some t, .opened⟩, .rejected))).1.state = .opened
      rw [if_pos hel]
      simp only [runBody]
      rw [if_pos (show ft ≤ fc + 1 by omega)]
    · show ((if rt < now - t then
          CircuitBreaker.runBody ⟨ft, rt, fc, some t, .halfOpen⟩ now .failure
        else (⟨ft, rt, fc, some t, .opened⟩, .rejected))).1.state = .opened
      rw [if_neg hel]

/-- Any sequence of failed calls keeps an open breaker open. -/
lemma CircuitBreaker.open_stays_open_run {cb : CircuitBreaker} (h : cb.Inv)
    (hst : cb.state = .opened) (ts : List ℚ) :
    (runCalls cb (ts.map (fun t => (t, CallOutcome.failure)))).state = .opened := by
  induction ts generalizing cb with
  | nil => exact hst
  | cons t ts ih =>
    simp only [List.map_cons, runCalls, List.foldl_cons]
    exact ih (inv_call h t .failure) (open_stays_open h hst t)

/-- From a closed breaker, enough consecutive failed calls open it. -/
lemma CircuitBreaker.closed_failures_open {cb : CircuitBreaker} (h : cb.Inv)
    (hst : cb.state = .closed) (ts : List ℚ)
    (hlen : cb.failure_threshold ≤ cb.failure_count + ts.length)
    (hne : 1 ≤ ts.length) :
    (runCalls cb (ts.map (fun t => (t, CallOutcome.failure)))).state = .opened := by
  induction ts generalizing cb with
  | nil => exact absurd hne (by simp)
  | cons t ts ih =>
    simp only [List.map_cons, runCalls, List.foldl_cons]
    obtain ⟨ft, rt, fc, lt, st⟩ := cb
    simp only at hst hlen
    subst hst
    by_cases hth : ft ≤ fc + 1
    · have hopen : ((⟨ft, rt, fc, lt, .closed⟩ : CircuitBreaker).call t .failure).1.state
          = .opened := by
        show ((CircuitBreaker.runBody ⟨ft, rt, fc, lt, .closed⟩ t .failure)).1.state = .opened
        simp only [runBody]
        rw [if_pos hth]
      exact open_stays_open_run (inv_call h t .failure) hopen ts
    · have hstep : ((⟨ft, rt, fc, lt, .closed⟩ : CircuitBreaker).call t .failure).1
          = ⟨ft, rt, fc + 1, some t, .closed⟩ := by
        show ((CircuitBreaker.runBody ⟨ft, rt, fc, lt, .closed⟩ t .failure)).1
          = ⟨ft, rt, fc + 1, some t, .closed⟩
        simp only [runBody]
        rw [if_neg hth]
      rw [hstep]
      refine ih (hstep ▸ inv_call h t .failure) rfl ?_ ?_
      · show ft ≤ (fc + 1) + ts.length
        simp only [List.length_cons] at hlen
        omega
      · show 1 ≤ ts.length
        simp only [List.length_cons] at hlen
        omega

/-- A successful call on a closed breaker changes nothing at all. -/
lemma CircuitBreaker.closed_success_step {cb : CircuitBreaker} (hst : cb.state = .closed)
    (now : ℚ) : cb.call now .success = (cb, .returned) := by
  obtain ⟨ft, rt, fc, lt, st⟩ := cb
  simp only at hst
  subst hst
  rfl

end BreakerLemmas

/-- A run of interleaved successes and failures from a closed breaker, with
too few failures to reach the threshold, stays closed and accumulates
exactly the number of failures seen (successes reset nothing). -/
lemma CircuitBreaker.closed_mixed_run {cb : CircuitBreaker} (hst : cb.state = .closed)
    (pre : List (ℚ × CallOutcome))
    (hlt : cb.failure_count + (pre.filter (fun p => p.2 = CallOutcome.failure)).length
      < cb.failure_threshold) :
    (runCalls cb pre).state = .closed ∧
    (runCalls cb pre).failure_count =
      cb.failure_count + (pre.filter (fun p => p.2 = CallOutcome.failure)).length ∧
    (runCalls cb pre).failure_threshold = cb.failure_threshold := by
  induction pre generalizing cb with
  | nil => exact ⟨hst, by simp [runCalls], rfl⟩
  | cons p pre ih =>
    obtain ⟨t, o⟩ := p
    cases o with
    | success =>
      have hfilter : (((t, CallOutcome.success) :: pre).filter
          (fun p => p.2 = CallOutcome.failure))
          = pre.filter (fun p => p.2 = CallOutcome.failure) := by
        simp [List.filter_cons]
      rw [hfilter] at hlt ⊢
      have hrw : runCalls cb ((t, CallOutcome.success) :: pre) = runCalls cb pre := by
        show runCalls (cb.call t .success).1 pre = runCalls cb pre
        rw [closed_success_step hst t]
      rw [hrw]
      exact ih hst hlt
    | failure =>
      have hfilter : (((t, CallOutcome.failure) :: pre).filter
          (fun p => p.2 = CallOutcome.failure))
          = (t, CallOutcome.failure) :: pre.filter (fun p => p.2 = CallOutcome.failure) := by
        simp [List.filter_cons]
      rw [hfilter] at hlt ⊢
      simp only [List.length_cons] at hlt
      obtain ⟨ft, rt, fc, lt, st⟩ := cb
      simp only at hst hlt ⊢
      subst hst
      have hth : ¬ ft ≤ fc + 1 := by omega
      have hstep : ((⟨ft, rt, fc, lt, .closed⟩ : CircuitBreaker).call t .failure).1
          = ⟨ft, rt, fc + 1, some t, .closed⟩ := by
        show ((CircuitBreaker.runBody ⟨ft, rt, fc, lt, .closed⟩ t .failure)).1
          = ⟨ft, rt, fc + 1, some t, .closed⟩
        simp only [runBody]
        rw [if_neg hth]
      have hrw : runCalls (⟨ft, rt, fc, lt, .closed⟩ : CircuitBreaker)
          ((t, CallOutcome.failure) :: pre)
          = runCalls (⟨ft, rt, fc + 1, some t, .closed⟩ : CircuitBreaker) pre := by
        show runCalls ((⟨ft, rt, fc, lt, .closed⟩ : CircuitBreaker).call t .failure).1 pre = _
        rw [hstep]
      rw [hrw]
      have hrec := @ih ⟨ft, rt, fc + 1, some t, .closed⟩ rfl
        (show (fc + 1) + _ < ft by omega)
      refine ⟨hrec.1, ?_, hrec.2.2⟩
      rw [hrec.2.1]
      simp only [List.length_cons]
      show (fc + 1) + (pre.filter (fun p => p.2 = CallOutcome.failure)).length
        = fc + ((pre.filter (fun p => p.2 = CallOutcome.failure)).length + 1)
      omega

/-- C2: the circuit breaker protocol.  (1) Any reachable breaker with a
positive threshold is `'open'` after `failure_threshold` consecutive
failed calls.  (2) While `'open'` and within the recovery window
(`now - last_failure_time ≤ recovery_timeout`) a call returns
`(unchanged breaker, rejected)` for either outcome of the wrapped
function — it is rejected without the function being invoked.  (3) Once
`recovery_timeout` has strictly elapsed, the call goes through in
`'half-open'`: a success closes the breaker and zeroes `failure_count`.
(4) A failure of that probe call re-opens it. -/
theorem C2_circuit_breaker :
    (∀ cb : CircuitBreaker, cb.Reachable → 1 ≤ cb.failure_threshold →
      ∀ ts : List ℚ, ts.length = cb.failure_threshold →
      (runCalls cb (ts.map (fun t => (t, CallOutcome.failure)))).state = .opened) ∧
    (∀ (cb : CircuitBreaker) (now t : ℚ), cb.state = .opened →
      cb.last_failure_time = some t → now - t ≤ cb.recovery_timeout →
      ∀ outcome, cb.call now outcome = (cb, .rejected)) ∧
    (∀ (cb : CircuitBreaker) (now t : ℚ), cb.state = .opened →
      cb.last_failure_time = some t → cb.recovery_timeout < now - t →
      (cb.call now .success).2 = .returned ∧
      (cb.call now .success).1.state = .closed ∧
      (cb.call now .success).1.failure_count = 0) ∧
    (∀ (cb : CircuitBreaker) (now t : ℚ), cb.Reachable → cb.state = .opened →
      cb.last_failure_time = some t → cb.recovery_timeout < now - t →
      (cb.call now .failure).2 = .raised ∧ (cb.call now .failure).1.state = .opened) := by
  refine ⟨?_, ?_, ?_, ?_⟩
  · intro cb hreach hft ts hlen
    have hinv := CircuitBreaker.reachable_inv hreach
    rcases hstate : cb.state with _ | _ | _
    · exact CircuitBreaker.closed_failures_open hinv hstate ts (by omega) (by omega)
    · exact CircuitBreaker.open_stays_open_run hinv hstate ts
    · exact absurd hstate hinv.2
  · intro cb now t hst hlt hle outcome
    obtain ⟨ft, rt, fc, l, st⟩ := cb
    simp only at hst hlt hle
    subst hst
    subst hlt
    show (if rt < now - t then
        CircuitBreaker.runBody ⟨ft, rt, fc, some t, .halfOpen⟩ now outcome
      else (⟨ft, rt, fc, some t, .opened⟩, .rejected))
      = (⟨ft, rt, fc, some t, .opened⟩, .rejected)
    rw [if_neg (not_lt.mpr hle)]
  · intro cb now t hst hlt hgt
    obtain ⟨ft, rt, fc, l, st⟩ := cb
    simp only at hst hlt hgt
    subst hst
    subst hlt
    have hcall : CircuitBreaker.call ⟨ft, rt, fc, some t, .opened⟩ now .success
        = (⟨ft, rt, 0, some t, .closed⟩, .returned) := by
      show (if rt < now - t then
          CircuitBreaker.runBody ⟨ft, rt, fc, some t, .halfOpen⟩ now .success
        else (⟨ft, rt, fc, some t, .opened⟩, .rejected)) = _
      rw [if_pos hgt]
      rfl
    rw [hcall]
    exact ⟨rfl, rfl, rfl⟩
  · intro cb now t hreach hst hlt hgt
    have hcur : cb.failure_threshold ≤ cb.failure_count :=
      ((CircuitBreaker.reachable_inv hreach).1 (by simp [hst])).1
    obtain ⟨ft, rt, fc, l, st⟩ := cb
    simp only at hst hlt hgt hcur
    subst hst
    subst hlt
    have hcall : CircuitBreaker.call ⟨ft, rt, fc, some t, .opened⟩ now .failure
        = (⟨ft, rt, fc + 1, some now, .opened⟩, .raised) := by
      show (if rt < now - t then
          CircuitBreaker.runBody ⟨ft, rt, fc, some t, .halfOpen⟩ now .failure
        else (⟨ft, rt, fc, some t, .opened⟩, .rejected)) = _
      rw [if_pos hgt]
      simp only [CircuitBreaker.runBody]
      rw [if_pos (show ft ≤ fc + 1 by omega)]
    rw [hcall]
    exact ⟨rfl, rfl⟩

/-- Witness for C2 on `CircuitBreaker(failure_threshold=2,
recovery_timeout=60.0)`: two failures (at times 0, 1) open it; at time 2
(inside the window) a call is rejected with the breaker unchanged; at
time 100 the half-open probe closes it on success with a zero count, and
re-opens it on failure. -/
theorem C2_circuit_breaker_witness :
    (runCalls (CircuitBreaker.init 2 60)
      (([0, 1] : List ℚ).map (fun t => (t, CallOutcome.failure)))).state = .opened ∧
    cbOpen.call 2 .success = (cbOpen, .rejected) ∧
    ((cbOpen.call 100 .success).2 = .returned ∧
      (cbOpen.call 100 .success).1.state = .closed ∧
      (cbOpen.call 100 .success).1.failure_count = 0) ∧
    ((cbOpen.call 100 .failure).2 = .raised ∧
      (cbOpen.call 100 .failure).1.state = .opened) := by
  refine ⟨?_, ?_, ?_, ?_⟩
  · exact C2_circuit_breaker.1 (CircuitBreaker.init 2 60) (.init 2 60) (by decide)
      [0, 1] (by decide)
  · exact C2_circuit_breaker.2.1 cbOpen 2 1 rfl rfl (show (2:ℚ) - 1 ≤ 60 by norm_num)
      .success
  · exact C2_circuit_breaker.2.2.1 cbOpen 100 1 rfl rfl
      (show (60:ℚ) < 100 - 1 by norm_num)
  · exact C2_circuit_breaker.2.2.2 cbOpen 100 1
      (CircuitBreaker.Reachable.step 1 .failure
        (CircuitBreaker.Reachable.step 0 .failure (CircuitBreaker.Reachable.init 2 60)))
      rfl rfl (show (60:ℚ) < 100 - 1 by norm_num)

/-- C9: a successful call made while the breaker is `'closed'` returns it
entirely unchanged — in particular `failure_count` and
`last_failure_time` keep their values — so from a fresh breaker, any
mixed run whose failures number `failure_threshold - 1` followed by one
more failed call ends `'open'`: interleaved successes do not postpone
opening. -/
theorem C9_closed_success_frame :
    (∀ (cb : CircuitBreaker) (now : ℚ), cb.state = .closed →
      cb.call now .success = (cb, .returned)) ∧
    (∀ (ft : Nat) (rt : ℚ) (pre : List (ℚ × CallOutcome)) (t : ℚ),
      (pre.filter (fun p => p.2 = CallOutcome.failure)).length + 1 = ft →
      (runCalls (CircuitBreaker.init ft rt) (pre ++ [(t, CallOutcome.failure)])).state
        = .opened) := by
  constructor
  · exact fun cb now hst => CircuitBreaker.closed_success_step hst now
  · intro ft rt pre t hft
    have hmix := @CircuitBreaker.closed_mixed_run (CircuitBreaker.init ft rt) rfl pre
      (show 0 + (pre.filter (fun p => p.2 = CallOutcome.failure)).length < ft by omega)
    obtain ⟨hs, hc, hth⟩ := hmix
    have hsplit : runCalls (CircuitBreaker.init ft rt) (pre ++ [(t, CallOutcome.failure)])
        = ((runCalls (CircuitBreaker.init ft rt) pre).call t .failure).1 := by
      simp [runCalls, List.foldl_append]
    rw [hsplit]
    generalize hg : runCalls (CircuitBreaker.init ft rt) pre = cb' at hs hc hth
    obtain ⟨ft', rt', fc', lt', st'⟩ := cb'
    simp only [CircuitBreaker.init] at hs hc hth
    subst hs
    show ((CircuitBreaker.runBody ⟨ft', rt', fc', lt', .closed⟩ t .failure)).1.state = .opened
    simp only [CircuitBreaker.runBody]
    rw [if_pos (show ft' ≤ fc' + 1 by omega)]

/-- Witness for C9: a success at a closed breaker is a no-op, and a run
`success, failure, success, failure` on a threshold-2 breaker ends open
— the interleaved successes did not reset the count. -/
theorem C9_closed_success_frame_witness :
    (CircuitBreaker.init 3 60).call 5 .success = (CircuitBreaker.init 3 60, .returned) ∧
    (runCalls (CircuitBreaker.init 2 60)
      ([((0:ℚ), CallOutcome.success), (1, CallOutcome.failure), (2, CallOutcome.success)]
        ++ [((3:ℚ), CallOutcome.failure)])).state = .opened := by
  constructor
  · exact C9_closed_success_frame.1 (CircuitBreaker.init 3 60) 5 rfl
  · exact C9_closed_success_frame.2 2 60
      [(0, .success), (1, .failure), (2, .success)] 3 (by decide)

/-- C1 counterexample: the session cache has no TTL.  With a single entry
for `"abc"` fetched at (ghost) time 0, a resolve at time 1000 — past any
reasonable TTL such as the 60 used here for concreteness — still returns
the cached `10.0.0.5` and performs no durable lookup, even though the
durable store meanwhile maps the session to `10.0.0.99`. -/
theorem C1_counterexample :
    get_desktop_ip [("abc", ⟨⟨some "10.0.0.5"⟩, 0⟩)]
        (fun _ => .found ⟨some "10.0.0.99"⟩) 1000 "abc"
      = ⟨some "10.0.0.5", [("abc", ⟨⟨some "10.0.0.5"⟩, 0⟩)], false⟩ ∧
    60 ≤ 1000 - 0 := by
  exact ⟨by decide, by omega⟩

/-- C1 (amended): the session-to-endpoint cache never expires an entry.
A resolve that finds a cached entry returns its stored `task_ip` without
any durable lookup, whatever the entry's age; the durable lookup runs
exactly on cache misses.  There is no TTL check in `get_desktop_ip`. -/
theorem C1_cache_never_expires :
    (∀ (cache : SessionCache) (db : String → DbResult) (now : Nat) (sid : String)
      (entry : CacheEntry), cacheLookup cache sid = some entry →
      get_desktop_ip cache db now sid = ⟨entry.record.task_ip, cache, false⟩) ∧
    (∀ (cache : SessionCache) (db : String → DbResult) (now : Nat) (sid : String),
      cacheLookup cache sid = none →
      (get_desktop_ip cache db now sid).did_lookup = true) := by
  constructor
  · intro cache db now sid entry h
    unfold get_desktop_ip
    rw [h]
  · intro cache db now sid h
    unfold get_desktop_ip
    rw [h]
    cases db sid with
    | errored => rfl
    | missing => rfl
    | found rec =>
      by_cases ht : truthyIp rec.task_ip = true
      · simp only [ht, if_true]
      · simp only [Bool.not_eq_true] at ht
        simp only [ht, Bool.false_eq_true, if_false]

/-- Witness for C1: a hit (entry aged 94 ticks) is served unchanged with
no lookup, and a miss triggers the durable lookup. -/
theorem C1_cache_never_expires_witness :
    get_desktop_ip [("abc", ⟨⟨some "10.0.0.5"⟩, 5⟩)] (fun _ => .missing) 99 "abc"
      = ⟨some "10.0.0.5", [("abc", ⟨⟨some "10.0.0.5"⟩, 5⟩)], false⟩ ∧
    (get_desktop_ip [] (fun _ => .missing) 0 "abc").did_lookup = true := by
  exact ⟨C1_cache_never_expires.1 _ _ 99 "abc" ⟨⟨some "10.0.0.5"⟩, 5⟩ (by decide),
    C1_cache_never_expires.2 [] _ 0 "abc" (by decide)⟩

/-- C10: `get_desktop_ip` never raises — on a cache miss whose DynamoDB
read raises, the exception is caught and the result is `None` with the
cache unchanged — and the cache is modified only by inserting, for the
requested session, a record the durable lookup returned with a truthy
`task_ip` (whose ip is also the returned value). -/
theorem C10_get_desktop_ip_total :
    (∀ (cache : SessionCache) (db : String → DbResult) (now : Nat) (sid : String),
      db sid = .errored → cacheLookup cache sid = none →
      get_desktop_ip cache db now sid = ⟨none, cache, true⟩) ∧
    (∀ (cache : SessionCache) (db : String → DbResult) (now : Nat) (sid : String),
      (get_desktop_ip cache db now sid).cache = cache ∨
      ∃ rec, db sid = .found rec ∧ truthyIp rec.task_ip = true ∧
        get_desktop_ip cache db now sid = ⟨rec.task_ip, (sid, ⟨rec, now⟩) :: cache, true⟩) := by
  constructor
  · intro cache db now sid hdb hmiss
    unfold get_desktop_ip
    rw [hmiss, hdb]
  · intro cache db now sid
    unfold get_desktop_ip
    cases hc : cacheLookup cache sid with
    | some entry => exact .inl rfl
    | none =>
      cases hdb : db sid with
      | errored => exact .inl rfl
      | missing => exact .inl rfl
      | found rec =>
        by_cases ht : truthyIp rec.task_ip = true
        · refine .inr ⟨rec, rfl, ht, ?_⟩
          simp only [ht, if_true]
        · simp only [Bool.not_eq_true] at ht
          simp only [ht, Bool.false_eq_true, if_false]
          exact .inl trivial

/-- Witness for C10: a raising lookup yields `None` and leaves the cache
alone; a successful lookup for a record with a `task_ip` inserts it. -/
theorem C10_get_desktop_ip_total_witness :
    get_desktop_ip [] (fun _ => .errored) 7 "sess" = ⟨none, [], true⟩ ∧
    ((get_desktop_ip [] (fun _ => .found ⟨some "10.0.0.8"⟩) 7 "sess").cache = [] ∨
      ∃ rec, (fun _ => DbResult.found ⟨some "10.0.0.8"⟩) "sess" = .found rec ∧
        truthyIp rec.task_ip = true ∧
        get_desktop_ip [] (fun _ => .found ⟨some "10.0.0.8"⟩) 7 "sess"
          = ⟨rec.task_ip, ("sess", ⟨rec, 7⟩) :: [], true⟩) := by
  exact ⟨C10_get_desktop_ip_total.1 [] _ 7 "sess" rfl (by decide),
    C10_get_desktop_ip_total.2 [] _ 7 "sess"⟩

/-- C3: `_send_key_event` is broken — `struct.pack('!BBHHI', 4, down, 0,
key)` names five fields but supplies four values, so it raises
`struct.error`; the `except` swallows it and nothing is written, both for
key-down and key-up, so `type_text("a")` (code point 97) puts no bytes on
the wire.  The 8-byte layout the claim (and the code's own comment)
describe is what the format `'!BBHI'` would have produced. -/
theorem C3_key_event_pack_arity_bug :
    send_key_event 97 true = none ∧
    send_key_event 97 false = none ∧
    type_text_bytes [97] = [] ∧
    structPack [.fB, .fB, .fH, .fI] [4, 1, 0, 97] = some [4, 1, 0, 0, 0, 0, 0, 97] := by
  exact ⟨by decide, by decide, by decide, by decide⟩

/-- C7 counterexample: a fallback `click(500, 425, button=1)` writes a
single 6-byte pointer event `[5, 1, 1, 244, 1, 169]` — it is not followed
by a release event for the same coordinates, so the stream differs from
the claimed press-then-release pair. -/
theorem C7_counterexample :
    click_fallback_bytes 500 425 1 = [5, 1, 1, 244, 1, 169] ∧
    (click_fallback_bytes 500 425 1).length = 6 ∧
    click_fallback_bytes 500 425 1 ≠ click_claimed_bytes 500 425 1 := by
  exact ⟨by decide, by decide, by decide⟩

/-- C7 (amended): for in-range arguments the fallback `click` writes
exactly one pointer-event message — tag 5, then the `button` argument
itself as the mask byte (not a bit mask derived from it), then x and y
big-endian 16-bit — and no release event follows. -/
theorem C7_click_single_event (x y button : Nat)
    (hx : x < 2 ^ 16) (hy : y < 2 ^ 16) (hb : button < 2 ^ 8) :
    click_fallback_bytes x y button
      = [5, button, x / 2 ^ 8, x % 2 ^ 8, y / 2 ^ 8, y % 2 ^ 8] := by
  have hx' : x < 65536 := by omega
  have hy' : y < 65536 := by omega
  have hb' : button < 256 := by omega
  simp [click_fallback_bytes, send_pointer_event, structPack, packField, hx', hy', hb']

/-- Witness for C7 at `click(3, 4, 2)`. -/
theorem C7_click_single_event_witness :
    click_fallback_bytes 3 4 2 = [5, 2, 0, 3, 0, 4] := by
  have h := C7_click_single_event 3 4 2 (by decide) (by decide) (by decide)
  simpa using h

/-- C8: when capture yields no image and S3 archiving is configured
(`S3_BUCKET` and `SESSION_ID` both set), `VNCBridge.screenshot` returns
`None` to its caller: the S3-save branch reads the undefined name
`buffer`, and the resulting `NameError` is caught by the blanket
`except`, which returns `None` — the mock placeholder that had already
been substituted is discarded.  Without S3 configured, the placeholder is
returned as the claim describes; with S3 configured, even a successful
capture is swallowed. -/
theorem C8_screenshot_buffer_name_error :
    bridge_screenshot none true = none ∧
    bridge_screenshot none false = some .mock ∧
    bridge_screenshot (some "imagebytes") true = none ∧
    bridge_screenshot (some "imagebytes") false = some (.real "imagebytes") := by
  exact ⟨by decide, by decide, by decide, by decide⟩

/-- C4 counterexample: the bridge performs no validation at all.
`VNCBridge.key_combination("shift")` hands the string straight to the
protocol client — `VNCClient.key_press` is invoked with `"shift"` — so
the invalid request does reach the Protocol Client; no
`InvalidActionRequest` exists anywhere, the client merely returns
`False` for the unmapped name.  `"ctrl+c"` is likewise passed through
undecomposed (and is also unmapped, returning `False`). -/
theorem C4_counterexample :
    (bridge_key_combination "shift").client_called = true ∧
    (bridge_key_combination "shift").client_keys = some "shift" ∧
    (bridge_key_combination "shift").result = false ∧
    (bridge_key_combination "ctrl+c").client_keys = some "ctrl+c" ∧
    (bridge_key_combination "ctrl+c").result = false := by
  exact ⟨by decide, by decide, by decide, by decide, by decide⟩

/-- C4 (amended): constraint validation lives in the agent's tool layer
(`computer_use_agent.py`), not in the bridge.  The bridge's
`key_combination` passes every keys string verbatim to the protocol
client.  The agent's `keyboard_input` — which performs no protocol I/O —
rejects any combination that splits into fewer than two parts (such as
`"shift"`) with an invalid-format error, and accepts `"ctrl+c"`,
decomposing it into the modifier list `["ctrl"]` plus terminal key `"c"`;
`vnc_controller` rejects negative coordinates and non
`{left,right,middle}` buttons before building its executed result. -/
theorem C4_validation_in_agent_not_bridge :
    (∀ keys : String, (bridge_key_combination keys).client_called = true ∧
      (bridge_key_combination keys).client_keys = some keys) ∧
    (∀ (text : String) (combo : String), truthyStr (some combo) = true →
      (combo_parts combo).length < 2 →
      keyboard_input text (some combo) = .invalidFormat combo) ∧
    (keyboard_input "" (some "ctrl+c") = .executed none (some "ctrl+c") ∧
      combo_modifiers "ctrl+c" = ["ctrl"] ∧
      combo_terminal_key "ctrl+c" = some "c") ∧
    (∀ (a : String) (x y : Int) (b : String),
      valid_actions.contains a = true → valid_buttons.contains b = true →
      x < 0 ∨ y < 0 → vnc_controller a x y b = .invalidCoordinates) ∧
    (∀ (a : String) (x y : Int) (b : String),
      valid_buttons.contains b = false → valid_actions.contains a = true →
      vnc_controller a x y b = .invalidButton b) ∧
    (∀ (a : String) (x y : Int) (b : String),
      valid_actions.contains a = true → valid_buttons.contains b = true →
      0 ≤ x → 0 ≤ y → vnc_controller a x y b = .executed a x y b) := by
  refine ⟨?_, ?_, ?_, ?_, ?_, ?_⟩
  · intro keys
    exact ⟨rfl, rfl⟩
  · intro text combo htruthy hparts
    unfold keyboard_input
    rw [if_neg (by simp [htruthy])]
    rw [if_pos (by simpa using htruthy)]
    simp only [Option.getD_some]
    rw [if_pos hparts]
  · refine ⟨?_, by decide, by decide⟩
    decide
  · intro a x y b ha hb hxy
    unfold vnc_controller
    rw [if_neg (by simpa using ha), if_neg (by simpa using hb), if_pos hxy]
  · intro a x y b hb ha
    unfold vnc_controller
    rw [if_neg (by simpa using ha), if_pos (by simpa using hb)]
  · intro a x y b ha hb hx hy
    unfold vnc_controller
    rw [if_neg (by simpa using ha), if_neg (by simpa using hb), if_neg (by omega)]

/-- Witness for C4: the bridge passes `"ctrl+c"` through; the agent
rejects the bare `"shift"` and the out-of-range or bad-button clicks, and
accepts a well-formed click. -/
theorem C4_validation_in_agent_not_bridge_witness :
    (bridge_key_combination "ctrl+c").client_keys = some "ctrl+c" ∧
    keyboard_input "" (some "shift") = .invalidFormat "shift" ∧
    vnc_controller "click" (-1) 5 "left" = .invalidCoordinates ∧
    vnc_controller "click" 500 425 "top" = .invalidButton "top" ∧
    vnc_controller "click" 500 425 "left" = .executed "click" 500 425 "left" := by
  refine ⟨(C4_validation_in_agent_not_bridge.1 "ctrl+c").2, ?_, ?_, ?_, ?_⟩
  · exact C4_validation_in_agent_not_bridge.2.1 "" "shift" (by decide) (by decide)
  · exact C4_validation_in_agent_not_bridge.2.2.2.1 "click" (-1) 5 "left"
      (by decide) (by decide) (.inl (by decide))
  · exact C4_validation_in_agent_not_bridge.2.2.2.2.1 "click" 500 425 "top"
      (by decide) (by decide)
  · exact C4_validation_in_agent_not_bridge.2.2.2.2.2 "click" 500 425 "left"
      (by decide) (by decide) (by decide) (by decide)
